import Mathlib

/-!
Verification of the core pose-editing logic of the Easy 2D OpenPose Editor.

The editor manipulates 18 labeled joints (COCO ordering) with pairwise
distance constraints, a parent-to-child visibility cascade, whole-pose
transforms, an import/detect pipeline and a linear undo/redo history.

Coordinates are modeled over an arbitrary linear ordered field `K`
(instantiated at `ℝ`, with `Real.sqrt` for the square root the code takes,
in the theorems that need genuine square roots, and at `ℚ` for concrete
evaluations).  The JavaScript `Math.sqrt` is passed in as an explicit
function argument `sqrtK` to the one operation that uses it.
-/

namespace Openpose

/-- A plain 2D point, as produced by the pose-detection collaborator. -/
structure Pt (K : Type) where
  x : K
  y : K
deriving Repr, DecidableEq

/-- Canvas size. -/
structure CanvasSize (K : Type) where
  width : K
  height : K
deriving Repr, DecidableEq

/-- One joint of the skeleton (`Keypoint` in `types.ts`).  The optional
`anchored` flag of the source is modeled as a `Bool` that starts `false`,
which matches the JavaScript truthiness of `undefined`. -/
@[ext]
structure KP (K : Type) where
  id : Nat
  name : String
  x : K
  y : K
  visible : Bool
  locked : Bool
  anchored : Bool
  color : String
  rgb : Nat × Nat × Nat
deriving Repr, DecidableEq

/-- The constraint store: JavaScript object keyed by the (sorted) joint pair,
value is the target distance.  Modeled as an association list. -/
abbrev Constraints (K : Type) := List ((Nat × Nat) × K)

/-- A history snapshot (`HistoryState` in `App.tsx`). -/
structure Snapshot (K : Type) where
  keypoints : List (KP K)
  constraints : Constraints K
deriving Repr, DecidableEq

/-- The mutable application state the claims are about: the current
keypoints and constraints plus the two history stacks. -/
structure AppState (K : Type) where
  keypoints : List (KP K)
  constraints : Constraints K
  past : List (Snapshot K)
  future : List (Snapshot K)
deriving Repr, DecidableEq

/-- The global drag mode (`lockedJointMode` in `App.tsx`). -/
inductive LockedJointMode where
  | translate
  | rotate
deriving Repr, DecidableEq

/-- `KEYPOINT_NAMES` from `constants.ts`. -/
def KEYPOINT_NAMES : List String :=
  ["Nose", "Neck", "R_Shoulder", "R_Elbow", "R_Wrist",
   "L_Shoulder", "L_Elbow", "L_Wrist", "R_Hip", "R_Knee",
   "R_Ankle", "L_Hip", "L_Knee", "L_Ankle", "R_Eye",
   "L_Eye", "R_Ear", "L_Ear"]

/-- `JOINT_COLORS_RGB` from `constants.ts`. -/
def JOINT_COLORS_RGB : List (Nat × Nat × Nat) :=
  [(255, 0, 0), (255, 85, 0), (255, 170, 0), (255, 255, 0), (170, 255, 0),
   (85, 255, 0), (0, 255, 0), (0, 255, 85), (0, 255, 170), (0, 255, 255),
   (0, 170, 255), (0, 85, 255), (0, 0, 255), (85, 0, 255), (170, 0, 255),
   (255, 0, 255), (255, 0, 170), (255, 0, 85)]

/-- One byte rendered as two lowercase hex digits, as
`x.toString(16)` padded with a leading `0` in `rgbToHex`. -/
def byteHex (x : Nat) : String :=
  let hex := Nat.toDigits 16 x
  if hex.length == 1 then "0" ++ String.mk hex else String.mk hex

/-- `rgbToHex` from `constants.ts`. -/
def rgbToHex (r g b : Nat) : String :=
  "#" ++ byteHex r ++ byteHex g ++ byteHex b

/-- `INITIAL_KEYPOINTS` from `constants.ts`: the 18 joints at the origin,
all visible and unlocked. -/
def INITIAL_KEYPOINTS (K : Type) [LinearOrderedField K] : List (KP K) :=
  KEYPOINT_NAMES.enum.map (fun p =>
    { id := p.1
      name := p.2
      x := 0
      y := 0
      visible := true
      locked := false
      anchored := false
      color := rgbToHex (JOINT_COLORS_RGB.getD p.1 (0, 0, 0)).1
        (JOINT_COLORS_RGB.getD p.1 (0, 0, 0)).2.1 (JOINT_COLORS_RGB.getD p.1 (0, 0, 0)).2.2
      rgb := JOINT_COLORS_RGB.getD p.1 (0, 0, 0) })

/-- `POSE_HIERARCHY` from `constants.ts`: parent to direct children, used
only by the visibility cascade.  Ids absent from the record map to `[]`,
matching the `undefined` check in the source. -/
def POSE_HIERARCHY : Nat → List Nat
  | 1 => [0, 2, 5, 8, 11]
  | 0 => [14, 15]
  | 2 => [3]
  | 3 => [4]
  | 5 => [6]
  | 6 => [7]
  | 8 => [9]
  | 9 => [10]
  | 11 => [12]
  | 12 => [13]
  | 14 => [16]
  | 15 => [17]
  | _ => []

/-- `DEFAULT_POSE_COORDS` from `constants.ts`. -/
def DEFAULT_POSE_COORDS (K : Type) [LinearOrderedField K] : List (Pt K) :=
  [⟨256, 55⟩, ⟨256, 115⟩, ⟨206, 115⟩, ⟨186, 195⟩, ⟨166, 255⟩,
   ⟨306, 115⟩, ⟨326, 195⟩, ⟨346, 255⟩, ⟨226, 255⟩, ⟨226, 355⟩,
   ⟨226, 455⟩, ⟨286, 255⟩, ⟨286, 355⟩, ⟨286, 455⟩, ⟨246, 45⟩,
   ⟨266, 45⟩, ⟨226, 50⟩, ⟨286, 50⟩]

/-- `recordHistory` from `App.tsx`: push the current snapshot on `past`
and clear `future`. -/
def recordHistory {K : Type} (st : AppState K) : AppState K :=
  { st with
    past := st.past ++ [⟨st.keypoints, st.constraints⟩]
    future := [] }

/-- `undo` from `App.tsx`: no-op on an empty past; otherwise pop the most
recent past snapshot, make it current, and push the previously current
snapshot on the front of `future`. -/
def undo {K : Type} (st : AppState K) : AppState K :=
  match st.past.getLast? with
  | none => st
  | some previous =>
    { keypoints := previous.keypoints
      constraints := previous.constraints
      past := st.past.dropLast
      future := ⟨st.keypoints, st.constraints⟩ :: st.future }

/-- `redo` from `App.tsx`: no-op on an empty future; otherwise pop the
front future snapshot, make it current, and push the previously current
snapshot on `past`. -/
def redo {K : Type} (st : AppState K) : AppState K :=
  match st.future with
  | [] => st
  | next :: rest =>
    { keypoints := next.keypoints
      constraints := next.constraints
      past := st.past ++ [⟨st.keypoints, st.constraints⟩]
      future := rest }

/-- One recorded mutating gesture: `recordHistory()` followed by setting
the new keypoints and constraints, as every mutating handler does. -/
def recordedMutation {K : Type} (st : AppState K) (kps : List (KP K))
    (cons : Constraints K) : AppState K :=
  { recordHistory st with keypoints := kps, constraints := cons }

/-- The breadth-first hide traversal inside `handleToggleVisibility`:
`idsToUpdate` is the visited set, the second list is the pending queue.
Each step dequeues one id and appends its unvisited `POSE_HIERARCHY`
children to both the set and the queue.  The fuel argument only bounds the
number of dequeue steps; since the hierarchy mentions ids below 18, a fuel
of 32 covers every possible traversal. -/
def collectHidden : Nat → List Nat → List Nat → List Nat
  | 0, ids, _ => ids
  | _ + 1, ids, [] => ids
  | fuel + 1, ids, currentId :: rest =>
    let step := (POSE_HIERARCHY currentId).foldl
      (fun (acc : List Nat × List Nat) childId =>
        if acc.1.contains childId then acc
        else (acc.1 ++ [childId], acc.2 ++ [childId]))
      (ids, [])
    collectHidden fuel step.1 (rest ++ step.2)

/-- `handleToggleVisibility` from `App.tsx`: flip the target joint's
visibility; when hiding, BFS the hierarchy and force every reachable
descendant invisible; when showing, only the target becomes visible. -/
def handleToggleVisibility {K : Type} (id : Nat) (kps : List (KP K)) : List (KP K) :=
  match kps.find? (fun k => k.id == id) with
  | none => kps
  | some target =>
    let newVisible := !target.visible
    let idsToUpdate := if !newVisible then collectHidden 32 [id] [id] else [id]
    kps.map (fun kp =>
      if idsToUpdate.contains kp.id then
        { kp with visible := if newVisible then kp.id == id else false }
      else kp)

/-- `handleToggleLock` from `App.tsx`. -/
def handleToggleLock {K : Type} (id : Nat) (kps : List (KP K)) : List (KP K) :=
  kps.map (fun kp => if kp.id == id then { kp with locked := !kp.locked } else kp)

/-- The worklist search for the connected component over active constraints
inside `handleKeypointMove`: dequeue an id, scan every constraint key for
neighbors, and enqueue unvisited ones.  Every enqueued id is fresh in the
visited set, so at most `2 * cons.length + 1` dequeues can happen; the fuel
is set to exactly that bound by the caller. -/
def componentAux {K : Type} (cons : Constraints K) :
    Nat → List Nat → List Nat → List Nat
  | 0, ids, _ => ids
  | _ + 1, ids, [] => ids
  | fuel + 1, ids, currId :: rest =>
    let step := cons.foldl
      (fun (acc : List Nat × List Nat) c =>
        if c.1.1 == currId || c.1.2 == currId then
          let neighbor := if c.1.1 == currId then c.1.2 else c.1.1
          if acc.1.contains neighbor then acc
          else (acc.1 ++ [neighbor], acc.2 ++ [neighbor])
        else acc)
      (ids, [])
    componentAux cons fuel step.1 (rest ++ step.2)

/-- `handleKeypointMove` from `App.tsx`: drag joint `id` towards the raw
target `(x, y)`.  In translate mode the whole constraint-connected
component is shifted by the drag vector; in rotate (constraint-resolution)
mode only the dragged joint moves, to the average of its circle
projections onto each active constraint, skipping any constraint whose raw
distance is not positive. -/
def handleKeypointMove {K : Type} [LinearOrderedField K] (sqrtK : K → K)
    (mode : LockedJointMode) (cons : Constraints K) (id : Nat) (x y : K)
    (prev : List (KP K)) : List (KP K) :=
  match prev.find? (fun k => k.id == id) with
  | none => prev
  | some sourceKp =>
    let connectedIds := componentAux cons (2 * cons.length + 1) [id] [id]
    match mode with
    | .translate =>
      let dx := x - sourceKp.x
      let dy := y - sourceKp.y
      prev.map (fun kp =>
        if connectedIds.contains kp.id then { kp with x := kp.x + dx, y := kp.y + dy }
        else kp)
    | .rotate =>
      let activeConstraints := cons.filter (fun c => c.1.1 == id || c.1.2 == id)
      let sums := activeConstraints.foldl
        (fun (acc : K × K × Nat) c =>
          let otherId := if c.1.1 == id then c.1.2 else c.1.1
          match prev.find? (fun k => k.id == otherId) with
          | none => acc
          | some otherKp =>
            let dx := x - otherKp.x
            let dy := y - otherKp.y
            let currentDist := sqrtK (dx * dx + dy * dy)
            if currentDist > 0 then
              let scale := c.2 / currentDist
              (acc.1 + (otherKp.x + dx * scale), acc.2.1 + (otherKp.y + dy * scale),
               acc.2.2 + 1)
            else acc)
        (0, 0, 0)
      let next : K × K :=
        if activeConstraints.length > 0 then
          if sums.2.2 > 0 then (sums.1 / (sums.2.2 : K), sums.2.1 / (sums.2.2 : K))
          else (x, y)
        else (x, y)
      prev.map (fun kp => if kp.id == id then { kp with x := next.1, y := next.2 } else kp)

/-- `handleSkeletonDrag` from `App.tsx`: shift every joint by `(dx, dy)`. -/
def handleSkeletonDrag {K : Type} [LinearOrderedField K] (dx dy : K)
    (kps : List (KP K)) : List (KP K) :=
  kps.map (fun kp => { kp with x := kp.x + dx, y := kp.y + dy })

/-- `getPoseCenter` from `App.tsx`: center of the bounding box of the
visible joints, or `none` if no joint is visible.  The source seeds the
min/max folds with infinities and counts the visible joints; folding over
the nonempty list of visible joints is the same computation. -/
def getPoseCenter {K : Type} [LinearOrderedField K] (kps : List (KP K)) :
    Option (Pt K) :=
  match kps.filter (fun kp => kp.visible) with
  | [] => none
  | v :: vs =>
    let minX := vs.foldl (fun a k => min a k.x) v.x
    let maxX := vs.foldl (fun a k => max a k.x) v.x
    let minY := vs.foldl (fun a k => min a k.y) v.y
    let maxY := vs.foldl (fun a k => max a k.y) v.y
    some ⟨(minX + maxX) / 2, (minY + maxY) / 2⟩

/-- `getPivotPoint` from `App.tsx`: centroid of anchored joints if any,
else the visible bounding-box center, else the canvas center. -/
def getPivotPoint {K : Type} [LinearOrderedField K] (width height : K)
    (kps : List (KP K)) : Pt K :=
  let anchors := kps.filter (fun k => k.anchored)
  if anchors.length > 0 then
    ⟨(anchors.map (fun k => k.x)).sum / (anchors.length : K),
     (anchors.map (fun k => k.y)).sum / (anchors.length : K)⟩
  else
    match getPoseCenter kps with
    | some center => center
    | none => ⟨width / 2, height / 2⟩

/-- `handleFlipHorizontal` from `App.tsx`. -/
def handleFlipHorizontal {K : Type} [LinearOrderedField K] (width : K)
    (prev : List (KP K)) : List (KP K) :=
  let cx := match getPoseCenter prev with
    | some center => center.x
    | none => width / 2
  prev.map (fun kp => { kp with x := cx + (cx - kp.x) })

/-- `handleFlipVertical` from `App.tsx`. -/
def handleFlipVertical {K : Type} [LinearOrderedField K] (height : K)
    (prev : List (KP K)) : List (KP K) :=
  let cy := match getPoseCenter prev with
    | some center => center.y
    | none => height / 2
  prev.map (fun kp => { kp with y := cy + (cy - kp.y) })

/-- The 8 symmetric (right, left) joint pairs shared by both mirror
handlers in `App.tsx`. -/
def mirrorPairs : List (Nat × Nat) :=
  [(2, 5), (3, 6), (4, 7), (8, 11), (9, 12), (10, 13), (14, 15), (16, 17)]

/-- The mirror axis of both mirror handlers: the visible Neck's x, else the
visible Nose's x, else half the canvas width. -/
def computeAxisX {K : Type} [LinearOrderedField K] (width : K)
    (prev : List (KP K)) : K :=
  let fromJoint : Option (KP K) → Option K := fun o =>
    match o with
    | some k => if k.visible then some k.x else none
    | none => none
  match fromJoint (prev.find? (fun k => k.id == 1)) with
  | some a => a
  | none =>
    match fromJoint (prev.find? (fun k => k.id == 0)) with
    | some a => a
    | none => width / 2

/-- The JavaScript `findIndex`, as an optional index. -/
def findIdxA {K : Type} (p : KP K → Bool) : List (KP K) → Option Nat
  | [] => none
  | a :: as => if p a then some 0 else (findIdxA p as).map (fun n => n + 1)

/-- In-place update of the element at an index, as the JavaScript
`newKps[i] = f(newKps[i])` array write. -/
def modifyAt {K : Type} (l : List (KP K)) (i : Nat) (f : KP K → KP K) :
    List (KP K) :=
  match l.get? i with
  | none => l
  | some a => l.set i (f a)

/-- `handleMirrorLeftToRight` from `App.tsx`: for each symmetric pair,
overwrite the right joint with the left joint's x reflected about the
axis, and the left joint's y and visibility verbatim. -/
def handleMirrorLeftToRight {K : Type} [LinearOrderedField K] (width : K)
    (prev : List (KP K)) : List (KP K) :=
  let axisX := computeAxisX width prev
  mirrorPairs.foldl
    (fun newKps rl =>
      match prev.find? (fun k => k.id == rl.2) with
      | none => newKps
      | some leftKp =>
        match findIdxA (fun k => k.id == rl.1) newKps with
        | none => newKps
        | some rightIndex =>
          modifyAt newKps rightIndex (fun r =>
            { r with x := axisX + (axisX - leftKp.x), y := leftKp.y,
                     visible := leftKp.visible }))
    prev

/-- `handleMirrorRightToLeft` from `App.tsx`: the same with the roles of
the two sides swapped. -/
def handleMirrorRightToLeft {K : Type} [LinearOrderedField K] (width : K)
    (prev : List (KP K)) : List (KP K) :=
  let axisX := computeAxisX width prev
  mirrorPairs.foldl
    (fun newKps rl =>
      match prev.find? (fun k => k.id == rl.1) with
      | none => newKps
      | some rightKp =>
        match findIdxA (fun k => k.id == rl.2) newKps with
        | none => newKps
        | some leftIndex =>
          modifyAt newKps leftIndex (fun l =>
            { l with x := axisX + (axisX - rightKp.x), y := rightKp.y,
                     visible := rightKp.visible }))
    prev

/-- `handleScale` from `App.tsx`: scale the base snapshot's joints about
the pivot computed from the base keypoints, and multiply every base
constraint distance by the same factor. -/
def handleScale {K : Type} [LinearOrderedField K] (width height : K)
    (baseKeypoints : List (KP K)) (baseConstraints : Constraints K)
    (factor : K) : List (KP K) × Constraints K :=
  let center := getPivotPoint width height baseKeypoints
  (baseKeypoints.map (fun kp =>
      { kp with
        x := center.x + (kp.x - center.x) * factor
        y := center.y + (kp.y - center.y) * factor }),
   baseConstraints.map (fun kv => (kv.1, kv.2 * factor)))

/-- `handleTransform` from `App.tsx` (spin plus width scaling relative to
the gesture base).  The trigonometric functions and pi of `Math` are taken
as arguments so the operation stays polymorphic in `K`. -/
def handleTransform {K : Type} [LinearOrderedField K] (cosK sinK : K → K)
    (piK : K) (width height : K) (baseKeypoints : List (KP K))
    (rotateZ scaleX : K) : List (KP K) :=
  let center := getPivotPoint width height baseKeypoints
  let radZ := rotateZ * piK / 180
  baseKeypoints.map (fun kp =>
    let rx := (kp.x - center.x) * scaleX
    let ry := kp.y - center.y
    { kp with
      x := center.x + (rx * cosK radZ - ry * sinK radZ)
      y := center.y + (rx * sinK radZ + ry * cosK radZ) })

/-- The fold seeded by the first element that models the variadic
`Math.min(...xs)` over a nonempty list. -/
def listMin {K : Type} [LinearOrderedField K] : List K → K
  | [] => 0
  | a :: as => as.foldl min a

/-- The fold seeded by the first element that models the variadic
`Math.max(...xs)` over a nonempty list. -/
def listMax {K : Type} [LinearOrderedField K] : List K → K
  | [] => 0
  | a :: as => as.foldl max a

/-- `generateFittedKeypoints` from `App.tsx`: the default pose scaled so
its height is three quarters of the canvas and centered on the canvas. -/
def generateFittedKeypoints (K : Type) [LinearOrderedField K]
    (targetWidth targetHeight : K) : List (KP K) :=
  let ys := (DEFAULT_POSE_COORDS K).map (fun p => p.y)
  let xs := (DEFAULT_POSE_COORDS K).map (fun p => p.x)
  let minY := listMin ys
  let maxY := listMax ys
  let minX := listMin xs
  let maxX := listMax xs
  let refHeight := maxY - minY
  let refCenterY := (minY + maxY) / 2
  let refCenterX := (minX + maxX) / 2
  let targetPoseHeight := targetHeight * (3 / 4)
  let scaleFactor := targetPoseHeight / refHeight
  (INITIAL_KEYPOINTS K).enum.map (fun p =>
    let dflt := (DEFAULT_POSE_COORDS K).getD p.1 ⟨0, 0⟩
    { p.2 with
      x := (dflt.x - refCenterX) * scaleFactor + targetWidth / 2
      y := (dflt.y - refCenterY) * scaleFactor + targetHeight / 2 })

/-- `handleReset` from `App.tsx`: record history, clear constraints and
regenerate the fitted default pose. -/
def handleReset {K : Type} [LinearOrderedField K] (width height : K)
    (st : AppState K) : AppState K :=
  { recordHistory st with
    keypoints := generateFittedKeypoints K width height
    constraints := [] }

/-- One entry of the `people` array of an imported OpenPose JSON file:
`pose_keypoints_2d` is `none` when the field is missing or not an array. -/
structure Person (K : Type) where
  pose_keypoints_2d : Option (List K)
deriving Repr, DecidableEq

/-- A parsed import file: `people` is `none` when the field is missing or
not an array; `canvas_config` is the optional embedded canvas size. -/
structure ImportData (K : Type) where
  people : Option (List (Person K))
  canvas_config : Option (CanvasSize K)
deriving Repr, DecidableEq

/-- The `getKeypoint` helper inside `handleImportJson`: the `(x, y, c)`
triple of joint `idx`, or `none` when the flat array is too short. -/
def getKeypointFromArray {K : Type} [LinearOrderedField K] (arr : List K)
    (idx : Nat) : Option (K × K × K) :=
  let base := idx * 3
  if base + 2 ≥ arr.length then none
  else some (arr.getD base 0, arr.getD (base + 1) 0, arr.getD (base + 2) 0)

/-- The BODY_25 to COCO-18 index remap inside `handleImportJson`. -/
def BODY25_MAPPING : List Nat :=
  [0, 1, 2, 3, 4, 5, 6, 7, 9, 10, 11, 12, 13, 14, 15, 16, 17, 18]

/-- `handleImportJson` from `App.tsx`, after JSON parsing: validate the
`people` array, record history, optionally adopt the embedded canvas size,
then either report a missing keypoint array or overwrite each joint that
has a complete `(x, y, c)` triple (via the BODY_25 remap when the array
has at least 75 numbers) and clear all constraints.  The returned string
is the alert shown to the user, `none` when no alert fires. -/
def handleImportJson {K : Type} [LinearOrderedField K] (st : AppState K)
    (size : CanvasSize K) (data : ImportData K) :
    AppState K × CanvasSize K × Option String :=
  match data.people with
  | none => (st, size, some "Invalid OpenPose JSON format: people array missing.")
  | some people =>
    match people with
    | [] => (st, size, some "No people found in JSON.")
    | person :: _ =>
      let st1 := recordHistory st
      let newSize :=
        match data.canvas_config with
        | some cfg => if cfg.width ≠ 0 ∧ cfg.height ≠ 0 then cfg else size
        | none => size
      match person.pose_keypoints_2d with
      | none => (st1, newSize, some "No 2D keypoints found.")
      | some kpArray =>
        let applyVal := fun (kp : KP K) (val : Option (K × K × K)) =>
          match val with
          | some v =>
            { kp with x := v.1, y := v.2.1,
                      visible := decide (v.1 ≠ 0 ∨ v.2.1 ≠ 0) }
          | none => kp
        let newKeypoints :=
          if kpArray.length ≥ 75 then
            st1.keypoints.enum.map (fun p =>
              applyVal p.2 (getKeypointFromArray kpArray (BODY25_MAPPING.getD p.1 0)))
          else
            st1.keypoints.enum.map (fun p =>
              applyVal p.2 (getKeypointFromArray kpArray p.1))
        ({ st1 with keypoints := newKeypoints, constraints := [] }, newSize, none)

/-- `handleAutoDetect` from `App.tsx`, with the opaque asynchronous
detection call replaced by its result: `none` models both a null return
and a thrown error.  History is recorded and the constraints are cleared
before the call; only a result of exactly 18 points updates the joints. -/
def handleAutoDetect {K : Type} [LinearOrderedField K] (hasImage : Bool)
    (st : AppState K) (detected : Option (List (Pt K))) :
    AppState K × Option String :=
  if !hasImage then (st, none)
  else
    let st1 := recordHistory st
    let st2 := { st1 with constraints := ([] : Constraints K) }
    match detected with
    | some pts =>
      if pts.length == 18 then
        ({ st2 with
           keypoints := st2.keypoints.enum.map (fun p =>
             { p.2 with
               x := (pts.getD p.1 ⟨0, 0⟩).x
               y := (pts.getD p.1 ⟨0, 0⟩).y
               visible := true }) }, none)
      else (st2, some "Could not detect a valid pose. Please try a clearer image.")
    | none => (st2, some "Could not detect a valid pose. Please try a clearer image.")

/-! ### Concrete states used for witnesses and counterexamples -/

/-- The Neck entry of the initial pose. -/
def neckInit : KP ℚ :=
  { id := 1, name := "Neck", x := 0, y := 0, visible := true, locked := false,
    anchored := false, color := rgbToHex 255 85 0, rgb := (255, 85, 0) }

/-- The R_Elbow entry of the initial pose. -/
def rElbowInit : KP ℚ :=
  { id := 3, name := "R_Elbow", x := 0, y := 0, visible := true, locked := false,
    anchored := false, color := rgbToHex 255 255 0, rgb := (255, 255, 0) }

/-- A bare rational joint for the state demos. -/
def mkKPQ (i : Nat) (nm : String) (px py : ℚ) : KP ℚ :=
  { id := i, name := nm, x := px, y := py, visible := true, locked := false,
    anchored := false, color := "", rgb := (0, 0, 0) }

/-- An asymmetric 18-joint pose: the default standing coordinates with the
left wrist pulled out to x = 400. -/
def mirrorDemo : List (KP ℚ) :=
  [mkKPQ 0 "Nose" 256 55, mkKPQ 1 "Neck" 256 115, mkKPQ 2 "R_Shoulder" 206 115,
   mkKPQ 3 "R_Elbow" 186 195, mkKPQ 4 "R_Wrist" 166 255, mkKPQ 5 "L_Shoulder" 306 115,
   mkKPQ 6 "L_Elbow" 326 195, mkKPQ 7 "L_Wrist" 400 255, mkKPQ 8 "R_Hip" 226 255,
   mkKPQ 9 "R_Knee" 226 355, mkKPQ 10 "R_Ankle" 226 455, mkKPQ 11 "L_Hip" 286 255,
   mkKPQ 12 "L_Knee" 286 355, mkKPQ 13 "L_Ankle" 286 455, mkKPQ 14 "R_Eye" 246 45,
   mkKPQ 15 "L_Eye" 266 45, mkKPQ 16 "R_Ear" 226 50, mkKPQ 17 "L_Ear" 286 50]

/-- A bare joint for the drag demos. -/
def mkKPR (i : Nat) (nm : String) (px py : ℝ) : KP ℝ :=
  { id := i, name := nm, x := px, y := py, visible := true, locked := false,
    anchored := false, color := "", rgb := (0, 0, 0) }

/-- The constraint partner joint of the drag demos. -/
def jDemo : KP ℝ := mkKPR 3 "R_Elbow" 5 7

/-- The dragged joint of the drag demos. -/
def srcDemo : KP ℝ := mkKPR 4 "R_Wrist" 1 2

/-- Three joints for the drag demos. -/
def dragKPs : List (KP ℝ) := [jDemo, srcDemo, mkKPR 9 "R_Knee" 50 60]

/-- One active constraint of target distance 10 between joints 3 and 4. -/
def dragCons : Constraints ℝ := [((3, 4), 10)]

/-- A rational three-joint app state with one active constraint. -/
def demoStateQ : AppState ℚ :=
  { keypoints := [mkKPQ 3 "R_Elbow" 5 7, mkKPQ 4 "R_Wrist" 1 2, mkKPQ 9 "R_Knee" 50 60]
    constraints := [((3, 4), 10)]
    past := []
    future := [] }

/-- An import payload whose flat keypoint array has only 3 numbers. -/
def shortImport : ImportData ℚ :=
  { people := some [⟨some [7, 8, 1]⟩], canvas_config := none }

/-- The id trace of a keypoint list; the joint-set invariant says every
operation preserves it as `[0, 1, ..., 17]`. -/
def idsOf {K : Type} (kps : List (KP K)) : List Nat := kps.map (fun k => k.id)

/-! ### Claim theorems -/

/-- Claim C3: from any state with empty history, three recorded mutations
to S1, S2, S3 followed by three undos restore the S0 snapshot; three
subsequent redos restore S3; and any recorded mutation clears the future
stack, in particular after an undo. -/
theorem claim_C3 {K : Type} (S0 : Snapshot K) (k1 k2 k3 : List (KP K))
    (c1 c2 c3 : Constraints K) :
    ((undo (undo (undo (recordedMutation (recordedMutation (recordedMutation
        ⟨S0.keypoints, S0.constraints, [], []⟩ k1 c1) k2 c2) k3 c3)))).keypoints
        = S0.keypoints ∧
     (undo (undo (undo (recordedMutation (recordedMutation (recordedMutation
        ⟨S0.keypoints, S0.constraints, [], []⟩ k1 c1) k2 c2) k3 c3)))).constraints
        = S0.constraints) ∧
    ((redo (redo (redo (undo (undo (undo (recordedMutation (recordedMutation
        (recordedMutation ⟨S0.keypoints, S0.constraints, [], []⟩ k1 c1) k2 c2)
        k3 c3))))))).keypoints = k3 ∧
     (redo (redo (redo (undo (undo (undo (recordedMutation (recordedMutation
        (recordedMutation ⟨S0.keypoints, S0.constraints, [], []⟩ k1 c1) k2 c2)
        k3 c3))))))).constraints = c3) ∧
    (∀ (st : AppState K) (kps : List (KP K)) (cons : Constraints K),
      (recordedMutation (undo st) kps cons).future = []) :=
  ⟨⟨rfl, rfl⟩, ⟨rfl, rfl⟩, fun _ _ _ => rfl⟩

/-- The hide traversal started at the Neck visits every id below 18: the
hierarchy chains from the shoulders, hips and eyes reach the elbows,
wrists, knees, ankles and ears as well. -/
theorem mem_collectHidden_neck (n : Nat) :
    (collectHidden 32 [1] [1]).contains n = decide (n < 18) := by
  show ([1, 0, 2, 5, 8, 11, 14, 15, 3, 6, 9, 12, 16, 17, 4, 7, 10, 13] : List Nat).contains n
    = decide (n < 18)
  rcases Nat.lt_or_ge n 18 with h | h
  · interval_cases n <;> rfl
  · rw [decide_eq_false (by omega)]
    simp only [List.contains_eq_any_beq, List.any_cons, List.any_nil, Bool.or_false,
      Bool.or_eq_false_iff, beq_eq_false_iff_ne]
    omega

/-- Claim C1 (counterexample): hiding Neck(1) does not leave joint 3
untouched: on the initial all-visible pose, toggling Neck also hides
R_Elbow(3), because the hierarchy chains `1 → 2 → 3`. -/
theorem claim_C1_counterexample :
    ((INITIAL_KEYPOINTS ℚ).find? (fun k => k.id == 3)).map KP.visible = some true ∧
    ((handleToggleVisibility 1 (INITIAL_KEYPOINTS ℚ)).find?
        (fun k => k.id == 3)).map KP.visible = some false := by
  decide

/-- Claim C1 (amended): hiding Neck(1) via the visibility toggle sets
`visible = false` on every joint with id below 18 — the downstream closure
of the Neck covers all 18 joints, including `{3,4,6,7,9,10,12,13}` via the
limb chains; toggling Neck(1) back to visible affects only Neck(1) and
re-shows no descendant. -/
theorem claim_C1_amended {K : Type} (kps : List (KP K)) (t : KP K)
    (ht : kps.find? (fun k => k.id == 1) = some t) :
    (t.visible = true → ∀ (i : Nat) (kp : KP K), kps[i]? = some kp →
      (handleToggleVisibility 1 kps)[i]? =
        some (if kp.id < 18 then { kp with visible := false } else kp)) ∧
    (t.visible = false → ∀ (i : Nat) (kp : KP K), kps[i]? = some kp →
      (handleToggleVisibility 1 kps)[i]? =
        some (if kp.id = 1 then { kp with visible := true } else kp)) := by
  constructor
  · intro hv i kp hkp
    unfold handleToggleVisibility
    rw [ht]
    simp only [hv, Bool.not_true, Bool.not_false, if_true, List.getElem?_map, hkp,
      Option.map_some']
    rw [mem_collectHidden_neck]
    by_cases h18 : kp.id < 18
    · simp [h18]
    · simp [h18]
  · intro hv i kp hkp
    unfold handleToggleVisibility
    rw [ht]
    simp only [hv, Bool.not_true, Bool.not_false, if_false, List.getElem?_map, hkp,
      Option.map_some']
    by_cases h1 : kp.id = 1
    · simp [h1]
    · simp [h1]

/-- Claim C1 (witness): the amended theorem applied to the initial pose at
index 3 (R_Elbow). -/
theorem claim_C1_witness :
    ((INITIAL_KEYPOINTS ℚ).find? (fun k => k.id == 1) = some neckInit ∧
      neckInit.visible = true ∧ (INITIAL_KEYPOINTS ℚ)[3]? = some rElbowInit) ∧
    (handleToggleVisibility 1 (INITIAL_KEYPOINTS ℚ))[3]? =
      some (if rElbowInit.id < 18 then { rElbowInit with visible := false }
            else rElbowInit) :=
  ⟨⟨by decide, rfl, by decide⟩,
   (claim_C1_amended (INITIAL_KEYPOINTS ℚ) neckInit (by decide)).1 rfl 3 rElbowInit
     (by decide)⟩

/-- Claim C6: in translate mode, every joint of the constraint-connected
component of the dragged joint moves by exactly the drag vector
`(dx, dy) = target - source`, every joint outside the component is left
unchanged, and all pairwise Euclidean distances between translated
positions are exactly preserved. -/
theorem claim_C6 (cons : Constraints ℝ) (id : Nat) (x y : ℝ)
    (prev : List (KP ℝ)) (src : KP ℝ)
    (hsrc : prev.find? (fun k => k.id == id) = some src) :
    (∀ (i : Nat) (kp : KP ℝ), prev[i]? = some kp →
      (handleKeypointMove Real.sqrt .translate cons id x y prev)[i]? =
        some (if (componentAux cons (2 * cons.length + 1) [id] [id]).contains kp.id
              then { kp with x := kp.x + (x - src.x), y := kp.y + (y - src.y) }
              else kp)) ∧
    (∀ kp1 kp2 : KP ℝ,
      Real.sqrt ((kp1.x + (x - src.x) - (kp2.x + (x - src.x)))^2 +
                 (kp1.y + (y - src.y) - (kp2.y + (y - src.y)))^2) =
      Real.sqrt ((kp1.x - kp2.x)^2 + (kp1.y - kp2.y)^2)) := by
  constructor
  · intro i kp hkp
    unfold handleKeypointMove
    rw [hsrc]
    simp only [List.getElem?_map, hkp, Option.map_some']
  · intro kp1 kp2
    congr 1
    ring

/-- Claim C6 (witness): dragging joint 4 of the three-joint demo state to
`(11, 22)` moves joint 3, its constraint partner, by the same vector. -/
theorem claim_C6_witness :
    (dragKPs.find? (fun k => k.id == 4) = some srcDemo ∧ dragKPs[0]? = some jDemo) ∧
    (handleKeypointMove Real.sqrt .translate dragCons 4 11 22 dragKPs)[0]? =
      some (if (componentAux dragCons (2 * dragCons.length + 1) [4] [4]).contains
              jDemo.id
            then { jDemo with
                   x := jDemo.x + (11 - srcDemo.x)
                   y := jDemo.y + (22 - srcDemo.y) }
            else jDemo) :=
  ⟨⟨rfl, rfl⟩, (claim_C6 dragCons 4 11 22 dragKPs srcDemo rfl).1 0 jDemo rfl⟩

/-- Claim C7: in constraint-resolution mode, with exactly one active
constraint of target distance `d` to the partner `j` and a raw target not
coincident with `j`, only the dragged joint moves, and it lands exactly at
Euclidean distance `d` from `j`: the code projects the raw target onto the
circle of radius `d` around `j`. -/
theorem claim_C7 (cons : Constraints ℝ) (id a b : Nat) (d x y : ℝ)
    (prev : List (KP ℝ)) (src j : KP ℝ)
    (hsrc : prev.find? (fun k => k.id == id) = some src)
    (hfilter : cons.filter (fun c => c.1.1 == id || c.1.2 == id) = [((a, b), d)])
    (hj : prev.find? (fun k => k.id == (if a == id then b else a)) = some j)
    (hd : 0 ≤ d)
    (hne : (x - j.x) * (x - j.x) + (y - j.y) * (y - j.y) ≠ 0) :
    handleKeypointMove Real.sqrt .rotate cons id x y prev =
      prev.map (fun kp => if kp.id == id then
        { kp with
          x := j.x + (x - j.x) *
            (d / Real.sqrt ((x - j.x) * (x - j.x) + (y - j.y) * (y - j.y)))
          y := j.y + (y - j.y) *
            (d / Real.sqrt ((x - j.x) * (x - j.x) + (y - j.y) * (y - j.y))) }
        else kp) ∧
    Real.sqrt
      ((j.x + (x - j.x) *
          (d / Real.sqrt ((x - j.x) * (x - j.x) + (y - j.y) * (y - j.y))) - j.x)^2 +
       (j.y + (y - j.y) *
          (d / Real.sqrt ((x - j.x) * (x - j.x) + (y - j.y) * (y - j.y))) - j.y)^2) = d := by
  have hpos : 0 < (x - j.x) * (x - j.x) + (y - j.y) * (y - j.y) :=
    lt_of_le_of_ne
      (by nlinarith [mul_self_nonneg (x - j.x), mul_self_nonneg (y - j.y)]) (Ne.symm hne)
  have hc : 0 < Real.sqrt ((x - j.x) * (x - j.x) + (y - j.y) * (y - j.y)) :=
    Real.sqrt_pos.mpr hpos
  constructor
  · unfold handleKeypointMove
    rw [hsrc]
    simp only [hfilter, List.foldl_cons, List.foldl_nil, hj, List.length_cons,
      List.length_nil]
    rw [if_pos hc]
    norm_num
  · have h1 :
        (j.x + (x - j.x) *
            (d / Real.sqrt ((x - j.x) * (x - j.x) + (y - j.y) * (y - j.y))) - j.x)^2 +
        (j.y + (y - j.y) *
            (d / Real.sqrt ((x - j.x) * (x - j.x) + (y - j.y) * (y - j.y))) - j.y)^2 =
        (d / Real.sqrt ((x - j.x) * (x - j.x) + (y - j.y) * (y - j.y)))^2 *
          ((x - j.x) * (x - j.x) + (y - j.y) * (y - j.y)) := by ring
    rw [h1, Real.sqrt_mul (sq_nonneg _),
      Real.sqrt_sq (div_nonneg hd (Real.sqrt_nonneg _))]
    exact div_mul_cancel₀ d hc.ne'

/-- Claim C7 (witness): dragging joint 4 to the raw target `(8, 11)` with
the single constraint of distance 10 to joint 3 at `(5, 7)`; the raw
distance is 5 and the joint lands at distance 10 from the partner. -/
theorem claim_C7_witness :
    (dragKPs.find? (fun k => k.id == 4) = some srcDemo ∧
     dragCons.filter (fun c => c.1.1 == 4 || c.1.2 == 4) = [((3, 4), 10)] ∧
     dragKPs.find? (fun k => k.id == (if (3 : Nat) == 4 then 4 else 3)) = some jDemo ∧
     (0 : ℝ) ≤ 10 ∧
     ((8 : ℝ) - jDemo.x) * (8 - jDemo.x) + (11 - jDemo.y) * (11 - jDemo.y) ≠ 0) ∧
    Real.sqrt
      ((jDemo.x + (8 - jDemo.x) *
          (10 / Real.sqrt ((8 - jDemo.x) * (8 - jDemo.x) +
            (11 - jDemo.y) * (11 - jDemo.y))) - jDemo.x)^2 +
       (jDemo.y + (11 - jDemo.y) *
          (10 / Real.sqrt ((8 - jDemo.x) * (8 - jDemo.x) +
            (11 - jDemo.y) * (11 - jDemo.y))) - jDemo.y)^2) = 10 :=
  ⟨⟨rfl, rfl, rfl, by norm_num, by norm_num [jDemo, mkKPR]⟩,
   (claim_C7 dragCons 4 3 4 10 8 11 dragKPs srcDemo jDemo rfl rfl rfl (by norm_num)
     (by norm_num [jDemo, mkKPR])).2⟩

/-- Claim C9 (counterexample): with the single constraint `3-4` and the
raw target placed exactly on the partner (5, 7), the dragged joint 4 is
NOT left unchanged at (1, 2): the zero-distance guard skips the
constraint, the candidate count stays 0, and the joint is placed at the
raw target (5, 7). -/
theorem claim_C9_counterexample :
    (handleKeypointMove Real.sqrt .rotate dragCons 4 5 7 dragKPs)[1]? =
      some { srcDemo with x := (5 : ℝ), y := (7 : ℝ) } ∧
    dragKPs[1]? = some srcDemo ∧ srcDemo.x = 1 ∧ (5 : ℝ) ≠ 1 := by
  refine ⟨?_, rfl, rfl, by norm_num⟩
  unfold handleKeypointMove
  norm_num [dragKPs, dragCons, jDemo, srcDemo, mkKPR, Real.sqrt_zero, List.find?]
  rfl

/-- Claim C9 (amended): when the raw distance from the target to the
partner of the only active constraint is zero, no division by zero occurs
and the constraint contributes no candidate; the dragged joint is then
placed at the raw target point (the partner's position), not left
unchanged; no other joint moves. -/
theorem claim_C9_amended (cons : Constraints ℝ) (id a b : Nat) (d : ℝ)
    (prev : List (KP ℝ)) (src j : KP ℝ)
    (hsrc : prev.find? (fun k => k.id == id) = some src)
    (hfilter : cons.filter (fun c => c.1.1 == id || c.1.2 == id) = [((a, b), d)])
    (hj : prev.find? (fun k => k.id == (if a == id then b else a)) = some j) :
    handleKeypointMove Real.sqrt .rotate cons id j.x j.y prev =
      prev.map (fun kp =>
        if kp.id == id then { kp with x := j.x, y := j.y } else kp) := by
  unfold handleKeypointMove
  rw [hsrc]
  simp only [hfilter, List.foldl_cons, List.foldl_nil, hj, List.length_cons,
    List.length_nil, sub_self, mul_zero, add_zero, Real.sqrt_zero, lt_self_iff_false,
    if_false, gt_iff_lt]
  norm_num

/-- Claim C9 (witness): the amended theorem at the three-joint demo state
with the raw target on the partner joint 3. -/
theorem claim_C9_witness :
    (dragKPs.find? (fun k => k.id == 4) = some srcDemo ∧
     dragCons.filter (fun c => c.1.1 == 4 || c.1.2 == 4) = [((3, 4), 10)] ∧
     dragKPs.find? (fun k => k.id == (if (3 : Nat) == 4 then 4 else 3)) = some jDemo) ∧
    handleKeypointMove Real.sqrt .rotate dragCons 4 jDemo.x jDemo.y dragKPs =
      dragKPs.map (fun kp =>
        if kp.id == 4 then { kp with x := jDemo.x, y := jDemo.y } else kp) :=
  ⟨⟨rfl, rfl, rfl⟩, claim_C9_amended dragCons 4 3 4 10 dragKPs srcDemo jDemo rfl rfl rfl⟩

/-- Looking a key up in an association list whose values were mapped gives
the mapped original value. -/
theorem lookup_map_values {K : Type} (f : K → K) (key : Nat × Nat) (l : Constraints K) :
    List.lookup key (l.map (fun kv => (kv.1, f kv.2))) = (List.lookup key l).map f := by
  induction l with
  | nil => rfl
  | cons kv rest ih =>
    by_cases h : key == kv.1
    · simp [List.lookup, h]
    · simp [List.lookup, h, ih]

/-- Claim C8: scaling by `factor` maps every joint to
`pivot + (position - pivot) * factor` with the pivot computed from the
gesture's base keypoints, and multiplies every stored constraint target
distance by `factor`. -/
theorem claim_C8 {K : Type} [LinearOrderedField K] (width height factor : K)
    (baseKeypoints : List (KP K)) (baseConstraints : Constraints K) :
    (∀ (i : Nat) (kp : KP K), baseKeypoints[i]? = some kp →
      (handleScale width height baseKeypoints baseConstraints factor).1[i]? =
        some { kp with
               x := (getPivotPoint width height baseKeypoints).x +
                 (kp.x - (getPivotPoint width height baseKeypoints).x) * factor
               y := (getPivotPoint width height baseKeypoints).y +
                 (kp.y - (getPivotPoint width height baseKeypoints).y) * factor }) ∧
    (∀ key : Nat × Nat,
      List.lookup key (handleScale width height baseKeypoints baseConstraints factor).2 =
        (List.lookup key baseConstraints).map (fun dist => dist * factor)) := by
  constructor
  · intro i kp hkp
    unfold handleScale
    simp only [List.getElem?_map, hkp, Option.map_some']
  · intro key
    unfold handleScale
    exact lookup_map_values (fun dist => dist * factor) key baseConstraints

/-- Claim C8 (witness): scaling the three-joint demo state by 2 about its
pivot, checked on the first joint and on the constraint of pair (3, 4). -/
theorem claim_C8_witness :
    (demoStateQ.keypoints[0]? = some (mkKPQ 3 "R_Elbow" 5 7)) ∧
    (handleScale 512 512 demoStateQ.keypoints demoStateQ.constraints 2).1[0]? =
      some { mkKPQ 3 "R_Elbow" 5 7 with
             x := (getPivotPoint 512 512 demoStateQ.keypoints).x +
               ((mkKPQ 3 "R_Elbow" 5 7).x -
                 (getPivotPoint 512 512 demoStateQ.keypoints).x) * 2
             y := (getPivotPoint 512 512 demoStateQ.keypoints).y +
               ((mkKPQ 3 "R_Elbow" 5 7).y -
                 (getPivotPoint 512 512 demoStateQ.keypoints).y) * 2 } ∧
    List.lookup ((3, 4) : Nat × Nat)
        (handleScale 512 512 demoStateQ.keypoints demoStateQ.constraints 2).2 =
      (List.lookup ((3, 4) : Nat × Nat) demoStateQ.constraints).map
        (fun dist => dist * 2) :=
  ⟨rfl,
   (claim_C8 512 512 2 demoStateQ.keypoints demoStateQ.constraints).1 0
     (mkKPQ 3 "R_Elbow" 5 7) rfl,
   (claim_C8 512 512 2 demoStateQ.keypoints demoStateQ.constraints).2 (3, 4)⟩

/-- Claim C4 (counterexample): on a failed detection the (keypoints,
constraints) snapshot is not left unchanged apart from the history entry:
the keypoints survive and the failure is reported, but the constraint
store, which held the pair (3, 4), is cleared. -/
theorem claim_C4_counterexample :
    (handleAutoDetect true demoStateQ none).1.constraints ≠ demoStateQ.constraints ∧
    (handleAutoDetect true demoStateQ none).1.keypoints = demoStateQ.keypoints ∧
    (handleAutoDetect true demoStateQ none).2 =
      some "Could not detect a valid pose. Please try a clearer image." :=
  ⟨by decide, rfl, rfl⟩

/-- Claim C4 (amended): when the detection call fails or returns a result
whose length is not 18, a user-visible failure is reported and the
keypoints are left unchanged, but the constraints are cleared — they are
cleared unconditionally before the call — in addition to the history entry
recorded speculatively before the call. -/
theorem claim_C4_amended {K : Type} [LinearOrderedField K] (st : AppState K)
    (detected : Option (List (Pt K)))
    (hfail : ∀ pts, detected = some pts → pts.length ≠ 18) :
    (handleAutoDetect true st detected).1.keypoints = st.keypoints ∧
    (handleAutoDetect true st detected).1.constraints = [] ∧
    (handleAutoDetect true st detected).2 =
      some "Could not detect a valid pose. Please try a clearer image." ∧
    (handleAutoDetect true st detected).1.past =
      st.past ++ [⟨st.keypoints, st.constraints⟩] ∧
    (handleAutoDetect true st detected).1.future = [] := by
  cases detected with
  | none => exact ⟨rfl, rfl, rfl, rfl, rfl⟩
  | some pts =>
    have h : (pts.length == 18) = false := beq_eq_false_iff_ne.mpr (hfail pts rfl)
    unfold handleAutoDetect
    simp [recordHistory, h]

/-- Claim C4 (witness): the amended theorem at the three-joint demo state
with a one-point detection result. -/
theorem claim_C4_witness :
    ([(⟨1, 2⟩ : Pt ℚ)] : List (Pt ℚ)).length ≠ 18 ∧
    ((handleAutoDetect true demoStateQ (some [⟨1, 2⟩])).1.keypoints
        = demoStateQ.keypoints ∧
     (handleAutoDetect true demoStateQ (some [⟨1, 2⟩])).1.constraints = [] ∧
     (handleAutoDetect true demoStateQ (some [⟨1, 2⟩])).2 =
       some "Could not detect a valid pose. Please try a clearer image." ∧
     (handleAutoDetect true demoStateQ (some [⟨1, 2⟩])).1.past =
       demoStateQ.past ++ [⟨demoStateQ.keypoints, demoStateQ.constraints⟩] ∧
     (handleAutoDetect true demoStateQ (some [⟨1, 2⟩])).1.future = []) :=
  ⟨by decide,
   claim_C4_amended demoStateQ (some [⟨1, 2⟩])
     (fun pts h => by injection h with h2; subst h2; decide)⟩

/-- Claim C5 (counterexample): importing a file whose flat keypoint array
has only 3 numbers (short of the 54 needed) is not a hard failure: no
alert fires, the first joint is overwritten and the constraints are
cleared, so the state does change. -/
theorem claim_C5_counterexample :
    (handleImportJson demoStateQ ⟨512, 512⟩ shortImport).2.2 = none ∧
    (handleImportJson demoStateQ ⟨512, 512⟩ shortImport).1.keypoints
      ≠ demoStateQ.keypoints ∧
    (handleImportJson demoStateQ ⟨512, 512⟩ shortImport).1.constraints = [] :=
  ⟨rfl, by decide, rfl⟩

/-- Claim C5 (amended): only a missing (or non-array) `pose_keypoints_2d`
is a reported failure, with keypoints and constraints unchanged (though a
history entry was already recorded).  A present array shorter than 75
numbers — in particular one shorter than 54 — is accepted silently: every
joint whose complete `(x, y, c)` triple is present is overwritten (with
`visible = (x ≠ 0 ∨ y ≠ 0)`), the remaining joints are left unchanged,
all constraints are cleared, and no failure is reported. -/
theorem claim_C5_amended {K : Type} [LinearOrderedField K] (st : AppState K)
    (size : CanvasSize K) (data : ImportData K) (person : Person K)
    (rest : List (Person K)) (hp : data.people = some (person :: rest)) :
    (person.pose_keypoints_2d = none →
      (handleImportJson st size data).2.2 = some "No 2D keypoints found." ∧
      (handleImportJson st size data).1.keypoints = st.keypoints ∧
      (handleImportJson st size data).1.constraints = st.constraints) ∧
    (∀ arr : List K, person.pose_keypoints_2d = some arr → arr.length < 75 →
      (handleImportJson st size data).2.2 = none ∧
      (handleImportJson st size data).1.constraints = [] ∧
      (∀ (i : Nat) (kp : KP K), st.keypoints[i]? = some kp →
        (handleImportJson st size data).1.keypoints[i]? =
          some (match getKeypointFromArray arr i with
                | some v =>
                  { kp with
                    x := v.1
                    y := v.2.1
                    visible := decide (v.1 ≠ 0 ∨ v.2.1 ≠ 0) }
                | none => kp))) := by
  constructor
  · intro hnone
    unfold handleImportJson
    rw [hp]
    simp only [hnone]
    exact ⟨trivial, rfl, rfl⟩
  · intro arr harr hlen
    unfold handleImportJson
    rw [hp]
    simp only [harr]
    rw [if_neg (by omega)]
    refine ⟨trivial, trivial, ?_⟩
    intro i kp hkp
    simp only [List.getElem?_map, List.getElem?_enum, recordHistory, hkp, Option.map_some']

/-- Claim C5 (witness): the amended theorem at the three-joint demo state
and the 3-number import payload, checked on the first joint. -/
theorem claim_C5_witness :
    (shortImport.people = some [⟨some [7, 8, 1]⟩] ∧
      ([7, 8, 1] : List ℚ).length < 75) ∧
    ((handleImportJson demoStateQ ⟨512, 512⟩ shortImport).2.2 = none ∧
     (handleImportJson demoStateQ ⟨512, 512⟩ shortImport).1.constraints = [] ∧
     (handleImportJson demoStateQ ⟨512, 512⟩ shortImport).1.keypoints[0]? =
       some (match getKeypointFromArray ([7, 8, 1] : List ℚ) 0 with
             | some v =>
               { mkKPQ 3 "R_Elbow" 5 7 with
                 x := v.1
                 y := v.2.1
                 visible := decide (v.1 ≠ 0 ∨ v.2.1 ≠ 0) }
             | none => mkKPQ 3 "R_Elbow" 5 7)) :=
  ⟨⟨rfl, by decide⟩,
   ((claim_C5_amended demoStateQ ⟨512, 512⟩ shortImport ⟨some [7, 8, 1]⟩ [] rfl).2
       [7, 8, 1] rfl (by decide)).1,
   ((claim_C5_amended demoStateQ ⟨512, 512⟩ shortImport ⟨some [7, 8, 1]⟩ [] rfl).2
       [7, 8, 1] rfl (by decide)).2.1,
   ((claim_C5_amended demoStateQ ⟨512, 512⟩ shortImport ⟨some [7, 8, 1]⟩ [] rfl).2
       [7, 8, 1] rfl (by decide)).2.2 0 (mkKPQ 3 "R_Elbow" 5 7) rfl⟩

/-- Claim C2 (counterexample): mirror left-to-right followed by mirror
right-to-left on the asymmetric demo pose (axis = visible Neck at x = 256,
unchanged between the calls) leaves R_Wrist(4) at
`256 + (256 - 400) = 112`, not at its pre-mirror x = 166: the right-side
joints keep the mirrored copy of the left side. -/
theorem claim_C2_counterexample :
    ((handleMirrorRightToLeft 512 (handleMirrorLeftToRight 512 mirrorDemo)).find?
        (fun k => k.id == 4)).map KP.x = some 112 ∧
    (mirrorDemo.find? (fun k => k.id == 4)).map KP.x = some 166 ∧
    (112 : ℚ) ≠ 166 := by
  refine ⟨?_, rfl, by norm_num⟩
  norm_num [handleMirrorLeftToRight, handleMirrorRightToLeft, mirrorDemo, mkKPQ,
    computeAxisX, findIdxA, modifyAt, mirrorPairs, List.find?_cons_of_pos,
    List.find?_cons_of_neg]

set_option maxHeartbeats 3200000 in
/-- Claim C2 (amended): on any 18-joint state in standard id order, mirror
left-to-right followed immediately by mirror right-to-left (the axis is
unchanged between the calls, since neither call touches Neck or Nose)
restores every LEFT-side joint of the 8 symmetric pairs
(ids 5, 6, 7, 11, 12, 13, 15, 17) to its pre-mirror coordinates and
visibility; the right-side joints instead end at the mirrored copy of the
left side, so they are restored only if the pose was already symmetric. -/
theorem claim_C2_amended {K : Type} [LinearOrderedField K] (width : K)
    (kps : List (KP K)) (hstd : kps.map (fun k => k.id) = List.range 18) :
    ∀ l ∈ ([5, 6, 7, 11, 12, 13, 15, 17] : List Nat),
      (handleMirrorRightToLeft width (handleMirrorLeftToRight width kps)).find?
          (fun k => k.id == l) =
        kps.find? (fun k => k.id == l) := by
  rw [show List.range 18 = [0, 1, 2, 3, 4, 5, 6, 7, 8, 9, 10, 11, 12, 13, 14, 15, 16, 17]
    from rfl] at hstd
  rcases kps with - | ⟨a0, - | ⟨a1, - | ⟨a2, - | ⟨a3, - | ⟨a4, - | ⟨a5, - | ⟨a6, - | ⟨a7, - | ⟨a8, - | ⟨a9, - | ⟨a10, - | ⟨a11, - | ⟨a12, - | ⟨a13, - | ⟨a14, - | ⟨a15, - | ⟨a16, - | ⟨a17, - | ⟨a18, kps⟩⟩⟩⟩⟩⟩⟩⟩⟩⟩⟩⟩⟩⟩⟩⟩⟩⟩⟩ <;>
    simp only [List.map_cons, List.map_nil, List.cons.injEq, and_true, and_false,
      false_and, reduceCtorEq] at hstd
  obtain ⟨h0, h1, h2, h3, h4, h5, h6, h7, h8, h9, h10, h11, h12, h13, h14, h15, h16,
    h17⟩ := hstd
  intro l hl
  fin_cases hl <;>
    simp [handleMirrorLeftToRight, handleMirrorRightToLeft, mirrorPairs, computeAxisX,
      findIdxA, modifyAt, h0, h1, h2, h3, h4, h5, h6, h7, h8, h9, h10, h11, h12, h13,
      h14, h15, h16, h17] <;>
    ext <;>
    simp [h5, h6, h7, h11, h12, h13, h15, h17]

/-- Claim C2 (witness): the amended theorem at the asymmetric demo pose
and the left wrist, id 7. -/
theorem claim_C2_witness :
    (mirrorDemo.map (fun k => k.id) = List.range 18 ∧
      (7 : Nat) ∈ ([5, 6, 7, 11, 12, 13, 15, 17] : List Nat)) ∧
    (handleMirrorRightToLeft 512 (handleMirrorLeftToRight 512 mirrorDemo)).find?
        (fun k => k.id == 7) = mirrorDemo.find? (fun k => k.id == 7) :=
  ⟨⟨by decide, by decide⟩, claim_C2_amended 512 mirrorDemo (by decide) 7 (by decide)⟩

/-- Mapping an id-preserving function over a keypoint list preserves the
id trace. -/
theorem idsOf_map {K : Type} (f : KP K → KP K) (h : ∀ kp, (f kp).id = kp.id)
    (l : List (KP K)) : idsOf (l.map f) = idsOf l := by
  induction l with
  | nil => rfl
  | cons a t ih => simp [idsOf, h, ih]

/-- Setting an index to the element already stored there is the identity. -/
theorem set_same {α : Type} : ∀ (l : List α) (i : Nat) (a : α),
    l.get? i = some a → l.set i a = l
  | [], _, _, h => by cases h
  | b :: t, 0, a, h => by cases h; rfl
  | b :: t, i + 1, a, h => by
    simp only [List.set]
    rw [set_same t i a h]

/-- The array-write helper preserves the id trace when the update function
preserves the id. -/
theorem idsOf_modifyAt {K : Type} (l : List (KP K)) (i : Nat) (f : KP K → KP K)
    (h : ∀ kp, (f kp).id = kp.id) : idsOf (modifyAt l i f) = idsOf l := by
  unfold modifyAt
  cases hg : l.get? i with
  | none => rfl
  | some a =>
    show idsOf (l.set i (f a)) = idsOf l
    have hm : (l.set i (f a)).map (fun k => k.id) = (l.map (fun k => k.id)).set i ((f a).id) :=
      List.map_set ..
    unfold idsOf
    rw [hm, h a]
    exact set_same _ i _ (by rw [List.get?_map, hg]; rfl)

/-- Mapping an index-aware function that keeps each element id over an
enumerated list preserves the id trace. -/
theorem idsOf_enumFrom_map {K : Type} (g : Nat × KP K → KP K)
    (h : ∀ p, (g p).id = p.2.id) :
    ∀ (n : Nat) (l : List (KP K)), idsOf ((List.enumFrom n l).map g) = idsOf l := by
  intro n l
  induction l generalizing n with
  | nil => rfl
  | cons a t ih =>
    simp only [List.enumFrom, List.map_cons, idsOf, h]
    exact congrArg _ (ih (n + 1))

/-- The initial pose lists the 18 ids in order. -/
theorem idsOf_initial {K : Type} [LinearOrderedField K] :
    idsOf (INITIAL_KEYPOINTS K) = List.range 18 := rfl

/-- The fitted default pose lists the 18 ids in order. -/
theorem idsOf_generateFitted {K : Type} [LinearOrderedField K] (w h : K) :
    idsOf (generateFittedKeypoints K w h) = List.range 18 := rfl

/-- A fold whose every step preserves the id trace preserves it overall. -/
theorem idsOf_foldl_pairs {K : Type} (step : List (KP K) → Nat × Nat → List (KP K))
    (hstep : ∀ acc p, idsOf (step acc p) = idsOf acc) :
    ∀ (ps : List (Nat × Nat)) (acc : List (KP K)),
      idsOf (ps.foldl step acc) = idsOf acc := by
  intro ps
  induction ps with
  | nil => intro acc; rfl
  | cons p pt ih => intro acc; rw [List.foldl_cons, ih, hstep]

/-- Mirroring left to right preserves the id trace. -/
theorem idsOf_mirrorLR {K : Type} [LinearOrderedField K] (width : K)
    (prev : List (KP K)) :
    idsOf (handleMirrorLeftToRight width prev) = idsOf prev := by
  unfold handleMirrorLeftToRight
  refine idsOf_foldl_pairs _ ?_ mirrorPairs prev
  intro acc p
  split
  · rfl
  · split
    · rfl
    · exact idsOf_modifyAt _ _ _ (fun kp => rfl)

/-- Mirroring right to left preserves the id trace. -/
theorem idsOf_mirrorRL {K : Type} [LinearOrderedField K] (width : K)
    (prev : List (KP K)) :
    idsOf (handleMirrorRightToLeft width prev) = idsOf prev := by
  unfold handleMirrorRightToLeft
  refine idsOf_foldl_pairs _ ?_ mirrorPairs prev
  intro acc p
  split
  · rfl
  · split
    · rfl
    · exact idsOf_modifyAt _ _ _ (fun kp => rfl)

/-- The id of a conditional choice between two joints with the same id. -/
theorem ite_id {K : Type} {c : Prop} [Decidable c] {a b : KP K} {n : Nat}
    (ha : a.id = n) (hb : b.id = n) : (if c then a else b).id = n := by
  split <;> assumption

/-- Claim C10: every pose-mutating operation returns a keypoint list whose
id trace is still exactly `[0, ..., 17]`, given a standard input state:
joints are never added, removed, or reordered.  Drag (both modes),
skeleton drag, visibility and lock toggles, both mirrors, both flips,
scale, the rotate/width transform, reset, import and detection are all
covered. -/
theorem claim_C10 {K : Type} [LinearOrderedField K] (sqrtK cosK sinK : K → K)
    (piK : K) (mode : LockedJointMode) (cons baseCons : Constraints K) (id : Nat)
    (x y dx dy width height factor rotZ sclX : K)
    (kps : List (KP K)) (past future : List (Snapshot K))
    (size : CanvasSize K) (data : ImportData K) (detected : Option (List (Pt K)))
    (hasImage : Bool)
    (hstd : idsOf kps = List.range 18) :
    idsOf (handleKeypointMove sqrtK mode cons id x y kps) = List.range 18 ∧
    idsOf (handleSkeletonDrag dx dy kps) = List.range 18 ∧
    idsOf (handleToggleVisibility id kps) = List.range 18 ∧
    idsOf (handleToggleLock id kps) = List.range 18 ∧
    idsOf (handleMirrorLeftToRight width kps) = List.range 18 ∧
    idsOf (handleMirrorRightToLeft width kps) = List.range 18 ∧
    idsOf (handleFlipHorizontal width kps) = List.range 18 ∧
    idsOf (handleFlipVertical height kps) = List.range 18 ∧
    idsOf (handleScale width height kps baseCons factor).1 = List.range 18 ∧
    idsOf (handleTransform cosK sinK piK width height kps rotZ sclX) = List.range 18 ∧
    idsOf (handleReset width height ⟨kps, cons, past, future⟩).keypoints
      = List.range 18 ∧
    idsOf (handleImportJson ⟨kps, cons, past, future⟩ size data).1.keypoints
      = List.range 18 ∧
    idsOf (handleAutoDetect hasImage ⟨kps, cons, past, future⟩ detected).1.keypoints
      = List.range 18 := by
  refine ⟨?_, ?_, ?_, ?_, ?_, ?_, ?_, ?_, ?_, ?_, ?_, ?_, ?_⟩
  · unfold handleKeypointMove
    split
    · exact hstd
    · cases mode with
      | translate =>
        dsimp only
        refine (idsOf_map _ ?_ kps).trans hstd
        exact fun kp => ite_id rfl rfl
      | rotate =>
        dsimp only
        refine (idsOf_map _ ?_ kps).trans hstd
        exact fun kp => ite_id rfl rfl
  · unfold handleSkeletonDrag
    refine (idsOf_map _ ?_ kps).trans hstd
    exact fun kp => rfl
  · unfold handleToggleVisibility
    split
    · exact hstd
    · dsimp only
      refine (idsOf_map _ ?_ kps).trans hstd
      exact fun kp => ite_id rfl rfl
  · unfold handleToggleLock
    refine (idsOf_map _ ?_ kps).trans hstd
    exact fun kp => ite_id rfl rfl
  · exact (idsOf_mirrorLR width kps).trans hstd
  · exact (idsOf_mirrorRL width kps).trans hstd
  · unfold handleFlipHorizontal
    dsimp only
    refine (idsOf_map _ ?_ kps).trans hstd
    exact fun kp => rfl
  · unfold handleFlipVertical
    dsimp only
    refine (idsOf_map _ ?_ kps).trans hstd
    exact fun kp => rfl
  · unfold handleScale
    dsimp only
    refine (idsOf_map _ ?_ kps).trans hstd
    exact fun kp => rfl
  · unfold handleTransform
    dsimp only
    refine (idsOf_map _ ?_ kps).trans hstd
    exact fun kp => rfl
  · exact idsOf_generateFitted width height
  · unfold handleImportJson
    rcases data with ⟨people, cfg⟩
    dsimp only
    cases people with
    | none => exact hstd
    | some ps =>
      cases ps with
      | nil => exact hstd
      | cons person rest =>
        dsimp only
        cases person.pose_keypoints_2d with
        | none => exact hstd
        | some arr =>
          dsimp only
          split
          · refine (idsOf_enumFrom_map _ ?_ 0 kps).trans hstd
            intro p
            cases getKeypointFromArray arr (BODY25_MAPPING.getD p.1 0) <;> rfl
          · refine (idsOf_enumFrom_map _ ?_ 0 kps).trans hstd
            intro p
            cases getKeypointFromArray arr p.1 <;> rfl
  · unfold handleAutoDetect
    split
    · exact hstd
    · dsimp only
      cases detected with
      | none => exact hstd
      | some pts =>
        dsimp only
        split
        · refine (idsOf_enumFrom_map _ ?_ 0 kps).trans hstd
          exact fun p => rfl
        · exact hstd

/-- Claim C10 (witness): the invariant instantiated on the 18-joint demo
pose, checked on the visibility toggle conjunct. -/
theorem claim_C10_witness :
    idsOf mirrorDemo = List.range 18 ∧
    idsOf (handleToggleVisibility 1 mirrorDemo) = List.range 18 :=
  ⟨by decide,
   (claim_C10 (fun q => q) (fun q => q) (fun q => q) 3 .translate [] [] 1
      0 0 0 0 512 512 2 0 1 mirrorDemo [] [] ⟨512, 512⟩ shortImport none true
      (by decide)).2.2.1⟩

end Openpose
